import Mathlib

/-
  Verification development for the DentistaPro repository.

  The data model is embedded from src/types.ts; the storage access layer
  from src/services/storageService.ts; the UI-level handlers from
  src/components/PatientView.tsx and the admin dashboard components.

  The external document store (one collection of appointment records keyed
  by an opaque string id) is modelled as an association list
  `Store = List (String × AppointmentData)`; a store call that can fail is
  given an explicit `Option StoreError` outcome parameter, `none` meaning
  the call succeeds.  Machine timestamps (epoch milliseconds) are `Nat`.
-/

namespace DentistaPro

/-- Status enum from src/types.ts (string enum with Spanish values). -/
inductive AppointmentStatus
  | SCHEDULED
  | COMPLETED
  | CANCELLED
deriving DecidableEq

/-- The string value carried by each enum member in src/types.ts. -/
def AppointmentStatus.value : AppointmentStatus → String
  | .SCHEDULED => "PROGRAMADA"
  | .COMPLETED => "COMPLETADA"
  | .CANCELLED => "CANCELADA"

/-- The sender union type of ChatMessage in src/types.ts. -/
inductive Sender
  | doctor
  | patient
deriving DecidableEq

/-- ChatMessage from src/types.ts. -/
structure ChatMessage where
  id : String
  sender : Sender
  text : String
  timestamp : Nat
deriving DecidableEq

/-- The document data stored for one appointment: the Appointment interface
of src/types.ts minus the id (the id is the document key, spliced back in
on read as in storageService).  Optional TS fields are `Option`s; the
optional `messages` array is `Option (List ChatMessage)`. -/
structure AppointmentData where
  patientName : String
  patientEmail : Option String
  patientPhone : Option String
  date : String
  time : String
  treatmentType : String
  status : AppointmentStatus
  doctorNotes : Option String
  patientComments : Option String
  cancellationReason : Option String
  messages : Option (List ChatMessage)
  createdAt : Nat
deriving DecidableEq

/-- Appointment from src/types.ts: document data plus its id. -/
structure Appointment extends AppointmentData where
  id : String
deriving DecidableEq

/-- NewAppointmentDTO from src/types.ts. -/
structure NewAppointmentDTO where
  patientName : String
  patientEmail : String
  patientPhone : String
  date : String
  time : String
  treatmentType : String
deriving DecidableEq

/-- The appointments collection of the external document store. -/
abbrev Store := List (String × AppointmentData)

/-- Errors raised by the external store; storageService only ever inspects
whether the code is the permission-denied one. -/
inductive StoreError
  | permissionDenied
  | networkError
deriving DecidableEq

/-- Reading one document by id (the getDoc call of the store). -/
def storeGet : Store → String → Option AppointmentData
  | [], _ => none
  | (i, d) :: rest, id => if i = id then some d else storeGet rest id

/-- Rebuilding an Appointment from a document key and its data, as the
spreads in storageService do. -/
def toAppointment (id : String) (d : AppointmentData) : Appointment :=
  { toAppointmentData := d, id := id }

/-- Applying a document transformation to the document with the given id
(the updateDoc of the store at the document addressed by its key); other
documents are untouched. -/
def storeMapAt : Store → String → (AppointmentData → AppointmentData) → Store
  | [], _, _ => []
  | (i, d) :: rest, id, f =>
      if i = id then (i, f d) :: storeMapAt rest id f
      else (i, d) :: storeMapAt rest id f

/-- The Partial Appointment updates actually passed to updateAppointment:
the admin edit payload, and the cancel / resume updates of PatientView.
A `none` field is absent from the update; for `cancellationReason`,
`some none` records the explicit undefined of handleResume — a value the
store client rejects before writing (src/services/firebase.ts initializes
the store with getFirestore and default settings, so undefined field
values are not ignored but raise). -/
structure AppointmentUpdate where
  patientName : Option String := none
  patientEmail : Option String := none
  patientPhone : Option String := none
  date : Option String := none
  time : Option String := none
  treatmentType : Option String := none
  status : Option AppointmentStatus := none
  cancellationReason : Option (Option String) := none
deriving DecidableEq

/-- Field-merge semantics of the partial update (updateDoc) of the store:
fields present in the update replace the stored ones, the rest persist.
Only payloads free of undefined field values reach this merge (see
hasUndefinedField and updateAppointment); a `some none` reaching the
cancellationReason merge would clear it, but no accepted payload carries
one. -/
def applyUpdate (u : AppointmentUpdate) (d : AppointmentData) : AppointmentData :=
  { patientName := u.patientName.getD d.patientName
    patientEmail := match u.patientEmail with
      | some v => some v
      | none => d.patientEmail
    patientPhone := match u.patientPhone with
      | some v => some v
      | none => d.patientPhone
    date := u.date.getD d.date
    time := u.time.getD d.time
    treatmentType := u.treatmentType.getD d.treatmentType
    status := u.status.getD d.status
    doctorNotes := d.doctorNotes
    patientComments := d.patientComments
    cancellationReason := u.cancellationReason.getD d.cancellationReason
    messages := d.messages
    createdAt := d.createdAt }

/-- The arrayUnion primitive of the store: append the element unless an equal
element is already in the array (deep equality, order preserved). -/
def arrayUnion (l : List ChatMessage) (m : ChatMessage) : List ChatMessage :=
  if m ∈ l then l else l ++ [m]

/-- Omit ChatMessage id: the message payload handed to addMessage. -/
structure MessageDraft where
  sender : Sender
  text : String
  timestamp : Nat
deriving DecidableEq

/-- The message record built inside addMessage: the draft plus an id taken
from the current epoch-millisecond clock, stringified. -/
def mkChatMessage (draft : MessageDraft) (now : Nat) : ChatMessage :=
  { id := toString now
    sender := draft.sender
    text := draft.text
    timestamp := draft.timestamp }

/-- The document transformation effected by one arrayUnion append on the
messages field (an absent field is created, as the store does). -/
def appendMsg (m : ChatMessage) (d : AppointmentData) : AppointmentData :=
  { d with messages := some (arrayUnion (d.messages.getD []) m) }

/-- The single store mutation issued by addMessage: one updateDoc carrying
an arrayUnion on the messages field (no read of the previous list). -/
def storeAddMessage (s : Store) (id : String) (m : ChatMessage) : Store :=
  storeMapAt s id (appendMsg m)

/-- The record literal synthesized inside createAppointment: the DTO spread
plus status = SCHEDULED, createdAt = now, messages = []. -/
def newAppointmentRecord (dto : NewAppointmentDTO) (now : Nat) : AppointmentData :=
  { patientName := dto.patientName
    patientEmail := some dto.patientEmail
    patientPhone := some dto.patientPhone
    date := dto.date
    time := dto.time
    treatmentType := dto.treatmentType
    status := .SCHEDULED
    doctorNotes := none
    patientComments := none
    cancellationReason := none
    messages := some []
    createdAt := now }

/-- StorageService.getAppointmentById: on success, the document mapped back
to an Appointment or undefined when absent; on any caught fetch error,
undefined after logging. -/
def getAppointmentById (s : Store) (id : String) (fail : Option StoreError) :
    Option Appointment :=
  match fail with
  | none => (storeGet s id).map (toAppointment id)
  | some _ => none

/-- StorageService.createAppointment: on success, addDoc inserts the
synthesized record under the fresh store-generated id.  On failure the
catch block alerts exactly when the error code is permission-denied and
re-throws the error.  Result: (new store, alerted flag, outcome seen by
the caller). -/
def createAppointment (s : Store) (freshId : String) (dto : NewAppointmentDTO)
    (now : Nat) (fail : Option StoreError) :
    Store × Bool × Except StoreError Unit :=
  match fail with
  | none => ((freshId, newAppointmentRecord dto now) :: s, false, .ok ())
  | some e => (s, decide (e = .permissionDenied), .error e)

/-- Whether the update payload carries an explicit undefined field value.
Among the payloads the code passes only cancellationReason can (the
handleResume payload).  Under the default settings of
src/services/firebase.ts (getFirestore without ignoreUndefinedProperties)
the store client deterministically rejects such a payload with a throw
before anything is written. -/
def hasUndefinedField (u : AppointmentUpdate) : Bool :=
  decide (u.cancellationReason = some none)

/-- StorageService.updateAppointment: updateDoc with a partial record; any
error is caught and only logged, so the caller always sees a normal
return and a failed call leaves the store untouched.  A payload carrying
an undefined field value is rejected by the client-side validation of the
store SDK: the throw lands in the same catch, so the store is untouched
and the caller still sees a normal return. -/
def updateAppointment (s : Store) (id : String) (updates : AppointmentUpdate)
    (fail : Option StoreError) : Store × Except StoreError Unit :=
  match fail with
  | none =>
      if hasUndefinedField updates then (s, .ok ())
      else (storeMapAt s id (applyUpdate updates), .ok ())
  | some _ => (s, .ok ())

/-- StorageService.addMessage: builds the message with a Date.now-derived
id and issues one arrayUnion update; any error is caught and only
logged. -/
def addMessage (s : Store) (appointmentId : String) (draft : MessageDraft)
    (now : Nat) (fail : Option StoreError) : Store × Except StoreError Unit :=
  match fail with
  | none => (storeAddMessage s appointmentId (mkChatMessage draft now), .ok ())
  | some _ => (s, .ok ())

/-- StorageService.deleteAppointment: deleteDoc by id; any error is caught
and only logged. -/
def deleteAppointment (s : Store) (id : String) (fail : Option StoreError) :
    Store × Except StoreError Unit :=
  match fail with
  | none => (s.filter fun p => decide (¬ p.1 = id), .ok ())
  | some _ => (s, .ok ())

/-- The comparator of subscribeToAppointments as a relation: date ascending
then time ascending, both plain lexicographic string comparison (the
localeCompare of the code on zero-padded ISO-like digit strings). -/
def apptLe (a b : Appointment) : Prop :=
  a.date < b.date ∨ (a.date = b.date ∧ a.time ≤ b.time)

instance : DecidableRel apptLe := fun a b => by
  unfold apptLe
  infer_instance

instance : IsTrans Appointment apptLe where
  trans a b c hab hbc := by
    rcases hab with hlt | ⟨heq, hle⟩
    · rcases hbc with hlt2 | ⟨heq2, _⟩
      · exact Or.inl (lt_trans hlt hlt2)
      · exact Or.inl (heq2 ▸ hlt)
    · rcases hbc with hlt2 | ⟨heq2, hle2⟩
      · exact Or.inl (heq ▸ hlt2)
      · exact Or.inr ⟨heq.trans heq2, le_trans hle hle2⟩

instance : IsTotal Appointment apptLe where
  total a b := by
    rcases lt_trichotomy a.date b.date with h | h | h
    · exact Or.inl (Or.inl h)
    · rcases le_total a.time b.time with ht | ht
      · exact Or.inl (Or.inr ⟨h, ht⟩)
      · exact Or.inr (Or.inr ⟨h.symm, ht⟩)
    · exact Or.inr (Or.inl h)

/-- StorageService.subscribeToAppointments: what one snapshot delivery
passes to the callback — every document mapped to an Appointment, then
sorted client-side by (date, time).  The sort algorithm of the JS engine is
unspecified, so it is embedded as a sort agreeing with the comparator. -/
def subscribeToAppointments (snapshot : Store) : List Appointment :=
  List.insertionSort apptLe (snapshot.map fun p => toAppointment p.1 p.2)

/-- JS String.prototype.trim: strip leading and trailing whitespace.
Embedded over the character list so that it evaluates by kernel
reduction. -/
def jsTrim (s : String) : String :=
  String.mk (((s.data.dropWhile Char.isWhitespace).reverse.dropWhile
    Char.isWhitespace).reverse)

/-- The update payload of the admin edit form (handleSubmit with an
editingId): the six DTO fields and nothing else — in particular no
status field. -/
def editUpdate (payload : NewAppointmentDTO) : AppointmentUpdate :=
  { patientName := some payload.patientName
    patientEmail := some payload.patientEmail
    patientPhone := some payload.patientPhone
    date := some payload.date
    time := some payload.time
    treatmentType := some payload.treatmentType }

/-- The update written by PatientView.handleCancel. -/
def cancelUpdate (reason : String) : AppointmentUpdate :=
  { status := some .CANCELLED
    cancellationReason := some (some reason) }

/-- The update written by PatientView.handleResume: status back to
SCHEDULED and cancellationReason explicitly undefined — a payload the
store client rejects (hasUndefinedField), so the intended resume write
never applies. -/
def resumeUpdate : AppointmentUpdate :=
  { status := some .SCHEDULED
    cancellationReason := some none }

/-- PatientView.handleCancel: guarded by appointment existing and the
entered reason having non-empty trim; only then is the store called.
Result: (store afterwards, whether a store call was made). -/
def handleCancel (appointment : Option Appointment) (cancelReason : String)
    (s : Store) : Store × Bool :=
  match appointment with
  | some a =>
      if jsTrim cancelReason ≠ "" then
        ((updateAppointment s a.id (cancelUpdate cancelReason) none).1, true)
      else (s, false)
  | none => (s, false)

/-- PatientView.handleResume: guarded by appointment existing and the
confirm dialog being accepted. -/
def handleResume (appointment : Option Appointment) (confirmed : Bool)
    (s : Store) : Store × Bool :=
  match appointment with
  | some a =>
      if confirmed then
        ((updateAppointment s a.id resumeUpdate none).1, true)
      else (s, false)
  | none => (s, false)

/-- PatientView chat input: disabled={isCancelled}. -/
def messageInputDisabled (a : Appointment) : Bool :=
  decide (a.status = .CANCELLED)

/-- PatientView send button: disabled={!messageText.trim() || isCancelled}. -/
def sendButtonDisabled (a : Appointment) (messageText : String) : Bool :=
  decide (jsTrim messageText = "") || decide (a.status = .CANCELLED)

/-- Admin dashboard chat button: rendered inside the
appt.status !== CANCELLED guard. -/
def adminChatButtonVisible (a : Appointment) : Bool :=
  decide (¬ a.status = .CANCELLED)

/-- Admin dashboard chat modal render guard: the modal and its send form
are shown whenever isChatOpen holds an id; the status of that appointment
is never consulted and nothing closes the modal when a cancellation
arrives over the live subscription. -/
def adminChatModalOpen (isChatOpen : Option String) : Bool :=
  isChatOpen.isSome

/-- AdminDashboard.handleSendChat: returns early when the drafted text has
empty trim, otherwise appends the doctor message via addMessage; the
status of the target appointment is never consulted.  tsNow is the
Date.now of the message timestamp, idNow the Date.now read inside
addMessage for the id.  Result: (store afterwards, whether a store call
was made). -/
def handleSendChat (appointmentId : String) (chatMessage : String)
    (tsNow idNow : Nat) (s : Store) : Store × Bool :=
  if jsTrim chatMessage ≠ "" then
    ((addMessage s appointmentId
        { sender := .doctor, text := chatMessage, timestamp := tsNow } idNow none).1, true)
  else (s, false)

/-- One step of the system: every code path of the repository that writes
the appointments collection, with its store-call outcome. -/
inductive Step : Store → Store → Prop
  | create (s : Store) (freshId : String) (dto : NewAppointmentDTO) (now : Nat)
      (fail : Option StoreError) :
      Step s (createAppointment s freshId dto now fail).1
  | edit (s : Store) (id : String) (payload : NewAppointmentDTO)
      (fail : Option StoreError) :
      Step s (updateAppointment s id (editUpdate payload) fail).1
  | cancel (s : Store) (a : Appointment) (reason : String) :
      Step s (handleCancel (some a) reason s).1
  | resume (s : Store) (a : Appointment) (confirmed : Bool) :
      Step s (handleResume (some a) confirmed s).1
  | send (s : Store) (id : String) (draft : MessageDraft) (now : Nat)
      (fail : Option StoreError) :
      Step s (addMessage s id draft now fail).1
  | remove (s : Store) (id : String) (fail : Option StoreError) :
      Step s (deleteAppointment s id fail).1

/-- No record of the collection has status COMPLETED. -/
def noCompleted (s : Store) : Prop :=
  ∀ p ∈ s, p.2.status ≠ AppointmentStatus.COMPLETED

/-! ### Helper lemmas -/

theorem storeGet_storeMapAt (s : Store) (id qid : String)
    (f : AppointmentData → AppointmentData) :
    storeGet (storeMapAt s id f) qid =
      if qid = id then (storeGet s qid).map f else storeGet s qid := by
  induction s with
  | nil => by_cases h : qid = id <;> simp [storeMapAt, storeGet, h]
  | cons p rest ih =>
      obtain ⟨i, d⟩ := p
      by_cases hi : i = id
      · subst hi
        by_cases hq : i = qid
        · subst hq
          simp [storeMapAt, storeGet]
        · have hq2 : ¬ qid = i := fun h => hq h.symm
          simp [storeMapAt, storeGet, hq, hq2, ih]
      · have hi2 : ¬ id = i := fun h => hi h.symm
        by_cases hq : i = qid
        · subst hq
          simp [storeMapAt, storeGet, hi, hi2]
        · simp [storeMapAt, storeGet, hi, hq, ih]

theorem mem_arrayUnion (l : List ChatMessage) (m x : ChatMessage) :
    x ∈ arrayUnion l m ↔ x ∈ l ∨ x = m := by
  unfold arrayUnion
  by_cases h : m ∈ l
  · simp only [if_pos h]
    constructor
    · exact Or.inl
    · rintro (hx | rfl)
      · exact hx
      · exact h
  · simp [if_neg h]

theorem nodup_arrayUnion (l : List ChatMessage) (m : ChatMessage)
    (h : l.Nodup) : (arrayUnion l m).Nodup := by
  unfold arrayUnion
  by_cases hm : m ∈ l
  · simpa [hm]
  · rw [if_neg hm]
    simp [List.nodup_append, h, hm]

theorem mem_foldl_arrayUnion (l : List ChatMessage) (init : List ChatMessage)
    (x : ChatMessage) :
    x ∈ List.foldl arrayUnion init l ↔ x ∈ init ∨ x ∈ l := by
  induction l generalizing init with
  | nil => simp
  | cons m rest ih =>
      simp only [List.foldl_cons, ih, mem_arrayUnion, List.mem_cons]
      constructor
      · rintro ((hx | rfl) | hx)
        · exact Or.inl hx
        · exact Or.inr (Or.inl rfl)
        · exact Or.inr (Or.inr hx)
      · rintro (hx | rfl | hx)
        · exact Or.inl (Or.inl hx)
        · exact Or.inl (Or.inr rfl)
        · exact Or.inr hx

theorem nodup_foldl_arrayUnion (l : List ChatMessage) (init : List ChatMessage)
    (h : init.Nodup) : (List.foldl arrayUnion init l).Nodup := by
  induction l generalizing init with
  | nil => simpa
  | cons m rest ih => exact ih (arrayUnion init m) (nodup_arrayUnion init m h)

theorem status_applyUpdate (u : AppointmentUpdate) (d : AppointmentData) :
    (applyUpdate u d).status = u.status.getD d.status := rfl

theorem noCompleted_storeMapAt (s : Store) (id : String)
    (f : AppointmentData → AppointmentData)
    (hf : ∀ d : AppointmentData,
      d.status ≠ AppointmentStatus.COMPLETED →
      (f d).status ≠ AppointmentStatus.COMPLETED)
    (hs : noCompleted s) : noCompleted (storeMapAt s id f) := by
  induction s with
  | nil => intro p hp; cases hp
  | cons q rest ih =>
      obtain ⟨i, d⟩ := q
      have hs_rest : noCompleted rest := fun r hr => hs r (List.mem_cons_of_mem _ hr)
      have hs_head := hs (i, d) (List.mem_cons_self _ _)
      intro p hp
      by_cases hi : i = id
      · rw [storeMapAt, if_pos hi] at hp
        rcases List.mem_cons.1 hp with rfl | hp
        · exact hf d hs_head
        · exact ih hs_rest p hp
      · rw [storeMapAt, if_neg hi] at hp
        rcases List.mem_cons.1 hp with rfl | hp
        · exact hs_head
        · exact ih hs_rest p hp

theorem noCompleted_step {s t : Store} (hstep : Step s t)
    (hs : noCompleted s) : noCompleted t := by
  cases hstep with
  | create freshId dto now fail =>
      cases fail with
      | none =>
          intro p hp
          rcases List.mem_cons.1 hp with rfl | hp
          · intro h
            exact AppointmentStatus.noConfusion h
          · exact hs p hp
      | some e => exact hs
  | edit id payload fail =>
      cases fail with
      | none =>
          refine noCompleted_storeMapAt s id _ ?_ hs
          intro d hd
          exact hd
      | some e => exact hs
  | cancel a reason =>
      simp only [handleCancel]
      by_cases h : jsTrim reason ≠ ""
      · rw [if_pos h]
        refine noCompleted_storeMapAt s a.id _ ?_ hs
        intro d _
        intro h2
        exact AppointmentStatus.noConfusion h2
      · rw [if_neg h]
        exact hs
  | resume a confirmed =>
      cases confirmed with
      | true => exact hs
      | false => exact hs
  | send id draft now fail =>
      cases fail with
      | none =>
          simp only [addMessage, storeAddMessage]
          refine noCompleted_storeMapAt s id _ ?_ hs
          intro d hd
          exact hd
      | some e => exact hs
  | remove id fail =>
      cases fail with
      | none =>
          intro p hp
          exact hs p (List.mem_of_mem_filter hp)
      | some e => exact hs

/-! ### Concrete sample data used by the witnesses -/

/-- The sample booking of the end-to-end scenario in the spec. -/
def dto0 : NewAppointmentDTO :=
  { patientName := "Juan Perez"
    patientEmail := "juan@example.com"
    patientPhone := "5551234"
    date := "2024-05-01"
    time := "10:00"
    treatmentType := "Limpieza General" }

/-- A freshly created sample record. -/
def d0 : AppointmentData := newAppointmentRecord dto0 1700000000000

/-- The sample record after a patient cancellation. -/
def cancelled0 : AppointmentData := applyUpdate (cancelUpdate ("Me enferme")) d0

/-- A one-document sample store holding the cancelled record. -/
def s0 : Store := [("appt1", cancelled0)]

/-- The cancelled sample record as read back by the patient view. -/
def a0 : Appointment := toAppointment ("appt1") cancelled0

/-- A sample doctor message. -/
def msgD : ChatMessage :=
  { id := "1700000000001", sender := .doctor, text := "Si, sin problema", timestamp := 1700000000001 }

/-- A sample patient message. -/
def msgP : ChatMessage :=
  { id := "1700000000001", sender := .patient, text := "Puedo llegar tarde?", timestamp := 1700000000001 }

/-! ### Claims -/

/-- Claim C1: creating an appointment from the required input fields F and
then fetching the created record by its id yields a record carrying
exactly F plus status = SCHEDULED, the assigned id, a createdAt equal to
(hence at least) the time of the create call, an empty message list, and
no other populated field. -/
theorem create_getById_roundtrip (s : Store) (freshId : String)
    (dto : NewAppointmentDTO) (now : Nat) :
    getAppointmentById (createAppointment s freshId dto now none).1 freshId none =
      some (toAppointment freshId (newAppointmentRecord dto now)) ∧
    (newAppointmentRecord dto now).patientName = dto.patientName ∧
    (newAppointmentRecord dto now).patientEmail = some dto.patientEmail ∧
    (newAppointmentRecord dto now).patientPhone = some dto.patientPhone ∧
    (newAppointmentRecord dto now).date = dto.date ∧
    (newAppointmentRecord dto now).time = dto.time ∧
    (newAppointmentRecord dto now).treatmentType = dto.treatmentType ∧
    (newAppointmentRecord dto now).status = AppointmentStatus.SCHEDULED ∧
    now ≤ (newAppointmentRecord dto now).createdAt ∧
    (newAppointmentRecord dto now).messages = some [] ∧
    (newAppointmentRecord dto now).doctorNotes = none ∧
    (newAppointmentRecord dto now).patientComments = none ∧
    (newAppointmentRecord dto now).cancellationReason = none := by
  refine ⟨?_, rfl, rfl, rfl, rfl, rfl, rfl, rfl, le_refl _, rfl, rfl, rfl, rfl⟩
  simp [getAppointmentById, createAppointment, storeGet]

/-- Claim C2: every snapshot delivery invokes the callback with the
documents (mapped to appointments) sorted by date ascending then time
ascending under plain lexicographic string comparison: the delivered
sequence is pairwise nondecreasing in (date, time) and is a permutation
of what the store returned; nothing is claimed about the order of
ties. -/
theorem subscribeToAppointments_sorted (snapshot : Store) :
    List.Sorted apptLe (subscribeToAppointments snapshot) ∧
    List.Perm (subscribeToAppointments snapshot)
      (snapshot.map fun p => toAppointment p.1 p.2) :=
  ⟨List.sorted_insertionSort apptLe _, List.perm_insertionSort apptLe _⟩

/-- Claim C4: a cancel attempt with an empty or whitespace-only reason is
rejected client-side before any store call (store untouched, no call
flag); with a non-empty reason the transition sets status = CANCELLED and
persists the entered reason alongside it. -/
theorem handleCancel_spec (a : Appointment) (reason : String) (s : Store)
    (d : AppointmentData) :
    (jsTrim reason = "" → handleCancel (some a) reason s = (s, false)) ∧
    (jsTrim reason ≠ "" →
      (handleCancel (some a) reason s).2 = true ∧
      (storeGet s a.id = some d →
        storeGet (handleCancel (some a) reason s).1 a.id
          = some (applyUpdate (cancelUpdate reason) d)) ∧
      (applyUpdate (cancelUpdate reason) d).status = AppointmentStatus.CANCELLED ∧
      (applyUpdate (cancelUpdate reason) d).cancellationReason = some reason) := by
  constructor
  · intro h
    simp [handleCancel, h]
  · intro h
    refine ⟨?_, ?_, rfl, rfl⟩
    · simp [handleCancel, h]
    · intro hget
      have hfu : hasUndefinedField (cancelUpdate reason) = false := rfl
      have e1 : (handleCancel (some a) reason s).1
          = storeMapAt s a.id (applyUpdate (cancelUpdate reason)) := by
        simp [handleCancel, h, updateAppointment, hfu]
      rw [e1, storeGet_storeMapAt, if_pos rfl, hget]
      rfl

/-- Witness for C4 at concrete inputs: a whitespace-only reason leaves the
store untouched with no call, and a real reason produces the CANCELLED
update. -/
theorem handleCancel_spec_witness :
    handleCancel (some a0) "   " s0 = (s0, false) ∧
    (applyUpdate (cancelUpdate ("Me enferme")) cancelled0).status
      = AppointmentStatus.CANCELLED :=
  ⟨(handleCancel_spec a0 ("   ") s0 cancelled0).1 (by decide),
   ((handleCancel_spec a0 ("Me enferme") s0 cancelled0).2 (by decide)).2.2.1⟩

/-- Claim C5, evaluated at the failing input (a code bug): resuming the
cancelled sample record sends the payload with status = SCHEDULED and an
explicitly undefined cancellationReason; the store client rejects that
payload, updateAppointment swallows the throw, so the store is left
entirely unchanged — the record stays CANCELLED with its reason intact —
while the caller still sees a normal return.  The claimed transition
(status to SCHEDULED, reason cleared) never happens. -/
theorem handleResume_rejected_on_cancelled :
    hasUndefinedField resumeUpdate = true ∧
    (handleResume (some a0) true s0).1 = s0 ∧
    storeGet (handleResume (some a0) true s0).1 a0.id = some cancelled0 ∧
    cancelled0.status = AppointmentStatus.CANCELLED ∧
    cancelled0.cancellationReason = some ("Me enferme") ∧
    ∀ fail : Option StoreError,
      (updateAppointment s0 a0.id resumeUpdate fail).2 = Except.ok () := by
  refine ⟨rfl, rfl, rfl, rfl, rfl, ?_⟩
  intro fail
  cases fail <;> rfl

/-- Claim C6: getById yields the absent indicator (never an error) both
when the id resolves to no record and when the underlying fetch fails, so
the two outcomes are indistinguishable to every caller. -/
theorem getAppointmentById_absent_vs_failure (s : Store) (id : String)
    (e : StoreError) :
    getAppointmentById s id (some e) = none ∧
    (storeGet s id = none → getAppointmentById s id none = none) := by
  constructor
  · rfl
  · intro h
    simp [getAppointmentById, h]

/-- Witness for C6 at concrete inputs: a missing id and a failed fetch both
produce the absent indicator. -/
theorem getAppointmentById_absent_vs_failure_witness :
    getAppointmentById [] "missing" (some StoreError.networkError) = none ∧
    getAppointmentById [] "missing" none = none :=
  ⟨(getAppointmentById_absent_vs_failure [] "missing" StoreError.networkError).1,
   (getAppointmentById_absent_vs_failure [] "missing" StoreError.networkError).2 rfl⟩

/-- Claim C7: every store failure is swallowed by update, appendMessage and
remove (the caller sees a normal return), while create re-raises every
failure, alerting distinctly exactly in the permission-denied case. -/
theorem failure_policy (s : Store) (id freshId : String) (u : AppointmentUpdate)
    (draft : MessageDraft) (now : Nat) (dto : NewAppointmentDTO) (e : StoreError) :
    (updateAppointment s id u (some e)).2 = Except.ok () ∧
    (addMessage s id draft now (some e)).2 = Except.ok () ∧
    (deleteAppointment s id (some e)).2 = Except.ok () ∧
    (createAppointment s freshId dto now (some e)).2.2 = Except.error e ∧
    ((createAppointment s freshId dto now (some e)).2.1 = true
      ↔ e = StoreError.permissionDenied) := by
  refine ⟨rfl, rfl, rfl, rfl, ?_⟩
  simp [createAppointment]

/-- Claim C3: appendMessage stamps the message with an id taken from the
current time, and issues one single arrayUnion mutation per append (no
read of the previous list), so that for any interleaving of concurrent
appends — any permutation of the appended messages — every appended
message ends up in the stored list exactly once: no lost updates, while
the relative order between the interleaved messages is whatever the
interleaving was. -/
theorem addMessage_concurrent (draft : MessageDraft) (now : Nat)
    (init msgs order : List ChatMessage)
    (hinit : init.Nodup) (hperm : List.Perm order msgs) :
    (mkChatMessage draft now).id = toString now ∧
    (∀ (s : Store) (id : String) (d : AppointmentData),
      storeGet s id = some d →
      storeGet (addMessage s id draft now none).1 id
        = some (appendMsg (mkChatMessage draft now) d)) ∧
    ∀ m ∈ msgs, (List.foldl arrayUnion init order).count m = 1 := by
  refine ⟨rfl, ?_, ?_⟩
  · intro s id d hget
    have e1 : (addMessage s id draft now none).1
        = storeMapAt s id (appendMsg (mkChatMessage draft now)) := rfl
    rw [e1, storeGet_storeMapAt, if_pos rfl, hget]
    rfl
  · intro m hm
    have hmem : m ∈ List.foldl arrayUnion init order :=
      (mem_foldl_arrayUnion order init m).2 (Or.inr (hperm.mem_iff.2 hm))
    exact List.count_eq_one_of_mem (nodup_foldl_arrayUnion order init hinit) hmem

/-- Witness for C3 at concrete inputs: the doctor and patient messages
appended in either interleaving are each stored exactly once. -/
theorem addMessage_concurrent_witness :
    (List.foldl arrayUnion [] [msgP, msgD]).count msgD = 1 ∧
    (List.foldl arrayUnion [] [msgP, msgD]).count msgP = 1 := by
  have h := addMessage_concurrent ⟨Sender.doctor, "x", 0⟩ 0 [] [msgD, msgP]
    [msgP, msgD] List.nodup_nil (List.Perm.swap msgD msgP [])
  exact ⟨h.2.2 msgD (by simp), h.2.2 msgP (by simp)⟩

/-- Claim C8: no operation of the system ever writes status COMPLETED:
creation writes SCHEDULED, cancel writes CANCELLED, resume writes
SCHEDULED, edits and message appends leave status alone, so in every
store reachable through the operations of the system itself no appointment has
status COMPLETED. -/
theorem status_never_completed (s : Store)
    (h : Relation.ReflTransGen Step [] s) :
    ∀ id d, (id, d) ∈ s → d.status ≠ AppointmentStatus.COMPLETED := by
  have hnc : noCompleted s := by
    induction h with
    | refl =>
        intro p hp
        cases hp
    | tail h1 h2 ih => exact noCompleted_step h2 ih
  intro id d hmem
  exact hnc (id, d) hmem

/-- A store reached by one create step, for the C8 witness. -/
def s1 : Store := (createAppointment [] "appt1" dto0 1700000000000 none).1

/-- Witness for C8 at a concrete reachable store: the created sample
record does not carry COMPLETED. -/
theorem status_never_completed_witness :
    d0.status ≠ AppointmentStatus.COMPLETED :=
  status_never_completed s1
    (Relation.ReflTransGen.single (Step.create [] "appt1" dto0 1700000000000 none))
    "appt1" d0 (by simp [s1, createAppointment, d0])

/-- Claim C9: because the append uses the set-union array
primitive and the assigned id is the stringified current millisecond
clock, appending a message element-wise identical to one already stored
leaves the stored message list unchanged — the duplicate is silently
dropped. -/
theorem addMessage_identical_dropped (s : Store) (id : String)
    (draft : MessageDraft) (now : Nat) (d : AppointmentData)
    (l : List ChatMessage) (hget : storeGet s id = some d)
    (hmsgs : d.messages = some l) (hmem : mkChatMessage draft now ∈ l) :
    (mkChatMessage draft now).id = toString now ∧
    storeGet (addMessage s id draft now none).1 id = some d := by
  refine ⟨rfl, ?_⟩
  have e1 : (addMessage s id draft now none).1
      = storeMapAt s id (appendMsg (mkChatMessage draft now)) := rfl
  rw [e1, storeGet_storeMapAt, if_pos rfl, hget]
  have harr : arrayUnion (d.messages.getD []) (mkChatMessage draft now) = l := by
    rw [hmsgs]
    simp [arrayUnion, hmem]
  show some (appendMsg (mkChatMessage draft now) d) = some d
  rw [show appendMsg (mkChatMessage draft now) d
      = { d with messages := some (arrayUnion (d.messages.getD []) (mkChatMessage draft now)) } from rfl]
  rw [harr, ← hmsgs]

/-- The stored sample record already holding the patient message. -/
def dWithMsg : AppointmentData := { d0 with messages := some [msgP] }

/-- A one-document store for the C9 witness. -/
def sMsg : Store := [("appt1", dWithMsg)]

/-- The patient draft whose stamped form equals the stored message. -/
def draftP : MessageDraft :=
  { sender := .patient, text := "Puedo llegar tarde?", timestamp := 1700000000001 }

/-- Witness for C9 at concrete inputs: re-appending the identical patient
message in the same millisecond leaves the stored record unchanged. -/
theorem addMessage_identical_dropped_witness :
    (mkChatMessage draftP 1700000000001).id = toString 1700000000001 ∧
    storeGet (addMessage sMsg ("appt1") draftP 1700000000001 none).1 ("appt1")
      = some dWithMsg :=
  addMessage_identical_dropped sMsg ("appt1") draftP 1700000000001 dWithMsg [msgP]
    rfl rfl (by decide)

/-- Counterexample to claim C10 as stated, at a concrete input: the
cancelled sample record has status CANCELLED and its chat modal is open
on the admin side (the modal render guard never consults status and
nothing closes it when the cancellation arrives); the admin send path,
gated only on the drafted text, makes the store call and the doctor
message is actually appended to the CANCELLED appointment — a UI-initiated
append on a last-observed CANCELLED status. -/
theorem admin_chat_on_cancelled_counterexample :
    cancelled0.status = AppointmentStatus.CANCELLED ∧
    adminChatModalOpen (some ("appt1")) = true ∧
    (handleSendChat ("appt1") ("hola") 1700000000002 1700000000002 s0).2 = true ∧
    storeGet (handleSendChat ("appt1") ("hola") 1700000000002 1700000000002 s0).1
        ("appt1")
      = some (appendMsg (mkChatMessage ⟨Sender.doctor, "hola", 1700000000002⟩
          1700000000002) cancelled0) ∧
    (appendMsg (mkChatMessage ⟨Sender.doctor, "hola", 1700000000002⟩
        1700000000002) cancelled0).messages
      = some [mkChatMessage ⟨Sender.doctor, "hola", 1700000000002⟩ 1700000000002] := by
  refine ⟨rfl, rfl, by decide, ?_, by decide⟩
  have e1 : (handleSendChat ("appt1") ("hola") 1700000000002 1700000000002 s0).1
      = storeMapAt s0 ("appt1")
          (appendMsg (mkChatMessage ⟨Sender.doctor, "hola", 1700000000002⟩
            1700000000002)) := by
    simp [handleSendChat, addMessage, storeAddMessage, jsTrim]
  rw [e1, storeGet_storeMapAt]
  simp [s0, storeGet]

/-- Claim C10 as amended: the patient view disables both the message input
and the send button whenever status = CANCELLED (an enabled patient send
implies a non-CANCELLED last-observed status), and the admin dashboard
renders the chat-opening button only when status is not CANCELLED; but
the admin chat modal, once open, is shown for any held-open id without
consulting status, and its send path is gated only on the drafted text
having non-empty trim — so the admin side can still append to an
appointment whose last-observed status is CANCELLED. -/
theorem chat_ui_gating (a : Appointment) (messageText : String)
    (id chatMessage : String) (tsNow idNow : Nat) (s : Store) :
    (a.status = AppointmentStatus.CANCELLED → messageInputDisabled a = true) ∧
    (a.status = AppointmentStatus.CANCELLED →
      sendButtonDisabled a messageText = true) ∧
    (sendButtonDisabled a messageText = false →
      ¬ a.status = AppointmentStatus.CANCELLED) ∧
    (adminChatButtonVisible a = true ↔ ¬ a.status = AppointmentStatus.CANCELLED) ∧
    adminChatModalOpen (some id) = true ∧
    (jsTrim chatMessage ≠ "" →
      (handleSendChat id chatMessage tsNow idNow s).2 = true) ∧
    (jsTrim chatMessage = "" →
      handleSendChat id chatMessage tsNow idNow s = (s, false)) := by
  refine ⟨?_, ?_, ?_, ?_, rfl, ?_, ?_⟩
  · intro h
    simp [messageInputDisabled, h]
  · intro h
    simp [sendButtonDisabled, h]
  · intro h
    simp [sendButtonDisabled] at h
    exact h.2
  · simp [adminChatButtonVisible]
  · intro h
    simp [handleSendChat, h]
  · intro h
    simp [handleSendChat, h]

/-- Witness for the amended C10 at concrete inputs: the patient controls
are disabled on the cancelled sample record, while the admin modal send
still goes through on it and a blank admin draft is rejected with no
store call. -/
theorem chat_ui_gating_witness :
    messageInputDisabled a0 = true ∧
    sendButtonDisabled a0 ("hola") = true ∧
    (handleSendChat ("appt1") ("hola") 1700000000002 1700000000002 s0).2 = true ∧
    handleSendChat ("appt1") ("   ") 1700000000002 1700000000002 s0 = (s0, false) :=
  ⟨(chat_ui_gating a0 ("hola") ("appt1") ("hola") 1700000000002 1700000000002 s0).1 rfl,
   (chat_ui_gating a0 ("hola") ("appt1") ("hola") 1700000000002 1700000000002 s0).2.1 rfl,
   (chat_ui_gating a0 ("hola") ("appt1") ("hola") 1700000000002 1700000000002
      s0).2.2.2.2.2.1 (by decide),
   (chat_ui_gating a0 ("hola") ("appt1") ("   ") 1700000000002 1700000000002
      s0).2.2.2.2.2.2 (by decide)⟩

end DentistaPro
